import Mathlib

/-!
Verification of the SOAR dataset trajectory-to-episode conversion pipeline
(`rlds_converters/soar_dataset/soar_dataset_dataset_builder.py`).

The per-trajectory transformation is shallowly embedded: a trajectory is
modelled by the contents of its directory (the video file, the two numpy
array files, the optional language file, plus its path string).  Python
exceptions (`ValueError`, failed `assert`) are modelled with `Except PyErr`.
Numeric scalars are modelled as rationals; the `astype(np.float32)` cast is
an uninterpreted parameter `c : ℚ → ℚ` applied elementwise, so every theorem
holds for the actual IEEE-754 narrowing cast.
-/

/-- A pixel: three colour channels.  OpenCV decodes in BGR channel order. -/
abbrev Pixel : Type := ℕ × ℕ × ℕ

/-- A decoded video frame, as the sequence of its pixels. -/
abbrev Frame : Type := List Pixel

/-- `cv2.cvtColor(frame, cv2.COLOR_BGR2RGB)` on one pixel: reverse the
channel order. -/
def bgr2rgb (p : Pixel) : Pixel := (p.2.2, p.2.1, p.1)

/-- `cv2.cvtColor(frame, cv2.COLOR_BGR2RGB)` on one frame. -/
def cvtColor (f : Frame) : Frame := f.map bgr2rgb

/-- The content of a `trajectory.mp4` file: whether `cv2.VideoCapture` can
open it, and the (BGR) frames that `cap.read()` yields, in decode order. -/
structure VideoFile where
  openable : Bool
  frames : List Frame
deriving DecidableEq

/-- `os.path.join` for a relative second component. -/
def pathJoin (a b : String) : String := a ++ "/" ++ b

/-- A trajectory directory, modelled by its path and the contents of its
files.  `video = none` means `trajectory.mp4` does not exist; `lang = none`
means `language_text.txt` does not exist (its absence is legal). -/
structure Traj where
  path : String
  video : Option VideoFile
  eefPoses : List (List ℚ)
  actions : List (List ℚ)
  lang : Option String
deriving DecidableEq

/-- Python exceptions raised by the per-trajectory pipeline. -/
inductive PyErr where
  /-- a `raise ValueError(msg)`, including the one `np.stack` raises on an
  empty list of arrays. -/
  | valueError (msg : String)
  /-- the failed `assert os.path.exists(...)` with its message. -/
  | assertExists (msg : String)
  /-- the failed length assert, carrying its diagnostic tuple
  `(path, len(actions), len(state), len(images))`. -/
  | assertLenMismatch (path : String) (lenActions lenState lenImages : ℕ)
deriving DecidableEq

/-- `video_to_frames(video_path)`: open the capture (raises `ValueError` if
it cannot be opened), read every frame, convert BGR to RGB, release the
capture, then `np.stack` the frames — which raises
`ValueError("need at least one array to stack")` when no frame was read.
The second component records whether `cap.release()` was executed. -/
def video_to_frames (v : VideoFile) : Except PyErr (List Frame) × Bool :=
  if v.openable then
    let fs := v.frames.map cvtColor
    if fs.length = 0 then
      (.error (.valueError "need at least one array to stack"), true)
    else
      (.ok fs, true)
  else
    (.error (.valueError "Error opening video file"), false)

/-- `process_images(path)`: assert that `trajectory.mp4` exists in the
directory, then decode it. -/
def process_images (t : Traj) : Except PyErr (List Frame) :=
  match t.video with
  | none =>
      .error (.assertExists
        ("Video file " ++ pathJoin t.path "trajectory.mp4" ++ " does not exist"))
  | some v => (video_to_frames v).1

/-- `process_state(path)`: `np.load` of `eef_poses.npy`, a sequence of state
rows. -/
def process_state (t : Traj) : List (List ℚ) := t.eefPoses

/-- `process_actions(path)`: `list(np.load(...))` of `actions.npy`. -/
def process_actions (t : Traj) : List (List ℚ) := t.actions

/-- Python `f.readline()` on a file content: the characters up to and
including the first newline (or the whole content when it has none). -/
def takeLine : List Char → List Char
  | [] => []
  | ch :: cs => if ch = '\n' then ['\n'] else ch :: takeLine cs

/-- Python `str.strip()` from the right: drop trailing whitespace. -/
def rstripChars (cs : List Char) : List Char :=
  (cs.reverse.dropWhile Char.isWhitespace).reverse

/-- Python `str.strip()`: drop leading and trailing whitespace. -/
def stripChars (cs : List Char) : List Char :=
  (rstripChars cs).dropWhile Char.isWhitespace

/-- `process_lang(path)`: if `language_text.txt` exists, the stripped result
of `f.readline()` on its content; otherwise the empty string. -/
def process_lang (t : Traj) : String :=
  match t.lang with
  | none => ""
  | some content => ⟨stripChars (takeLine content.data)⟩

/-- The spec's description of the instruction (§4.4): "the whitespace-stripped
first line of `language_text.txt` when that file exists, or the empty string
when it is absent".  Written from the spec's words, for comparison with
`process_lang`. -/
def spec_instruction (t : Traj) : String :=
  match t.lang with
  | none => ""
  | some content => ⟨stripChars (content.data.takeWhile (fun ch => ch ≠ '\n'))⟩

/-- The per-step observation record. -/
structure Observation where
  state : List ℚ
  image_0 : Frame
deriving DecidableEq

/-- One step record of an episode. -/
structure Step where
  observation : Observation
  action : List ℚ
  is_first : Bool
  is_last : Bool
  language_instruction : String
deriving DecidableEq

/-- A default step record, used only as the default of `List.getD`. -/
def defaultStep : Step :=
  { observation := { state := [], image_0 := [] }
    action := [], is_first := false, is_last := false, language_instruction := "" }

/-- The per-episode metadata record. -/
structure EpisodeMetadata where
  file_path : String
  has_language : Bool
deriving DecidableEq

/-- The output sample of one trajectory. -/
structure Sample where
  steps : List Step
  episode_metadata : EpisodeMetadata
deriving DecidableEq

/-- Equality of `Except` results is decidable when both payloads have
decidable equality. -/
instance instDecEqExcept {ε α : Type} [DecidableEq ε] [DecidableEq α] :
    DecidableEq (Except ε α)
  | .error e, .error f =>
    if h : e = f then isTrue (by rw [h]) else isFalse (by simp [h])
  | .error _, .ok _ => isFalse (by simp)
  | .ok _, .error _ => isFalse (by simp)
  | .ok a, .ok b =>
    if h : a = b then isTrue (by rw [h]) else isFalse (by simp [h])

/-- The episode-assembly loop: `for i in range(len(actions))`, building one
step record per index.  `c` is the `astype(np.float32)` cast, applied to
every scalar of a row. -/
def mkEpisode (c : ℚ → ℚ) (state : List (List ℚ)) (images : List Frame)
    (actions : List (List ℚ)) (lang : String) : List Step :=
  (List.range actions.length).map (fun i =>
    { observation :=
        { state := (state.getD i []).map c
          image_0 := images.getD i [] }
      action := (actions.getD i []).map c
      is_first := decide (i = 0)
      is_last := decide (i = actions.length - 1)
      language_instruction := lang })

namespace SOARDataset

/-- `SOARDataset._process_example(path)`: load images, state, actions and
language, assert the three lengths are equal (the assert carries
`(path, len(actions), len(state), len(images))`), assemble the episode and
the metadata, and return `(path, sample)`. -/
def process_example (c : ℚ → ℚ) (t : Traj) : Except PyErr (String × Sample) :=
  match process_images t with
  | .error e => .error e
  | .ok images =>
    let state := process_state t
    let actions := process_actions t
    let lang := process_lang t
    if actions.length = state.length ∧ state.length = images.length then
      .ok (t.path,
        { steps := mkEpisode c state images actions lang
          episode_metadata :=
            { file_path := t.path
              has_language := !lang.isEmpty } })
    else
      .error (.assertLenMismatch t.path actions.length state.length images.length)

end SOARDataset

/-- Python `int()` applied to an exact rational: truncation toward zero,
i.e. the numerator t-divided by the (positive) denominator. -/
def pyInt (q : ℚ) : ℤ := q.num.tdiv q.den

/-- One directory found by the depth-limited glob: its path and the ordered
children matching `traj*`. -/
structure Dir where
  path : String
  trajs : List String
deriving DecidableEq

namespace SOARDataset

/-- The loop of `SOARDataset._split_generators`: for each directory, glob
`traj*`; when nothing matches, print a warning and continue; otherwise the
first `int(count * proportion)` children extend the train inputs and the
rest extend the validation inputs.  Returns
`(train_inputs, val_inputs, printed warnings)`. -/
def split_generators (p : ℚ) : List Dir → List String × List String × List String
  | [] => ([], [], [])
  | d :: rest =>
    if d.trajs.isEmpty then
      let r := split_generators p rest
      (r.1, r.2.1, ("no trajs found in " ++ pathJoin d.path "traj*") :: r.2.2)
    else
      let k := (pyInt ((d.trajs.length : ℚ) * p)).toNat
      let r := split_generators p rest
      (d.trajs.take k ++ r.1, d.trajs.drop k ++ r.2.1, r.2.2)

end SOARDataset

/-! ## Concrete inputs used by witnesses and counterexamples -/

/-- A video file that opens but decodes to zero frames. -/
def emptyVid : VideoFile := { openable := true, frames := [] }

/-- A one-frame openable video file. -/
def oneFrameVid : VideoFile := { openable := true, frames := [[(1, 2, 3)]] }

/-- A three-frame openable video file. -/
def goodVid : VideoFile :=
  { openable := true, frames := [[(1, 2, 3)], [(4, 5, 6)], [(7, 8, 9)]] }

/-- A directory with two trajectory children. -/
def dirTwo : Dir := { path := "/data/2024/01/01/scene/a", trajs := ["traj0", "traj1"] }

/-- A directory with no trajectory children. -/
def dirEmpty : Dir := { path := "/data/2024/01/01/scene/b", trajs := [] }

/-- A trajectory whose video decodes to zero frames and whose state and
action arrays are both empty. -/
def trajEmptyAll : Traj :=
  { path := "/data/2024/01/01/scene/traj0", video := some emptyVid,
    eefPoses := [], actions := [], lang := none }

/-- A trajectory with zero decoded frames but one state row and one action
row: the three counts are not all equal. -/
def trajMismatchNoFrames : Traj :=
  { path := "/data/2024/01/01/scene/traj1", video := some emptyVid,
    eefPoses := [[1, 2, 3, 4, 5, 6, 7]], actions := [[0, 0, 0, 0, 0, 0, 0]],
    lang := none }

/-- A trajectory with one decoded frame, two state rows and one action row:
the three counts are not all equal. -/
def trajMismatch : Traj :=
  { path := "/data/2024/01/01/scene/traj2", video := some oneFrameVid,
    eefPoses := [[1, 2, 3, 4, 5, 6, 7], [1, 2, 3, 4, 5, 6, 7]],
    actions := [[0, 0, 0, 0, 0, 0, 0]], lang := none }

/-- A trajectory whose video file exists and opens but yields no frames,
with consistent (one-row) arrays. -/
def trajZeroFrames : Traj :=
  { path := "/data/2024/01/01/scene/traj8", video := some emptyVid,
    eefPoses := [[1, 2, 3, 4, 5, 6, 7]], actions := [[1, 2, 3, 4, 5, 6, 7]],
    lang := none }

/-- A consistent one-step trajectory. -/
def trajOneFrame : Traj :=
  { path := "/data/2024/01/01/scene/traj9", video := some oneFrameVid,
    eefPoses := [[1, 2, 3, 4, 5, 6, 7]], actions := [[1, 2, 3, 4, 5, 6, 7]],
    lang := none }

/-- A consistent three-step trajectory with a language file. -/
def trajGood : Traj :=
  { path := "/data/2024/01/01/scene/traj3"
    video := some goodVid
    eefPoses := [[1, 0, 0, 0, 0, 0, 0], [0, 1, 0, 0, 0, 0, 0], [0, 0, 1, 0, 0, 0, 1]]
    actions := [[0, 0, 0, 0, 0, 0, 1], [0, 0, 0, 0, 0, 0, 0], [1, 1, 1, 0, 0, 0, 1]]
    lang := some "pick up cup\n" }

/-- The decoded (RGB) frames of `goodVid`. -/
def imgsGood : List Frame := [[(3, 2, 1)], [(6, 5, 4)], [(9, 8, 7)]]

/-- The sample that `process_example` produces on `trajGood` with the
identity cast. -/
def sampleGood : Sample :=
  { steps :=
      [{ observation := { state := [1, 0, 0, 0, 0, 0, 0], image_0 := [(3, 2, 1)] }
         action := [0, 0, 0, 0, 0, 0, 1]
         is_first := true, is_last := false, language_instruction := "pick up cup" },
       { observation := { state := [0, 1, 0, 0, 0, 0, 0], image_0 := [(6, 5, 4)] }
         action := [0, 0, 0, 0, 0, 0, 0]
         is_first := false, is_last := false, language_instruction := "pick up cup" },
       { observation := { state := [0, 0, 1, 0, 0, 0, 1], image_0 := [(9, 8, 7)] }
         action := [1, 1, 1, 0, 0, 0, 1]
         is_first := false, is_last := true, language_instruction := "pick up cup" }]
    episode_metadata :=
      { file_path := "/data/2024/01/01/scene/traj3", has_language := true } }

/-! ## Helper lemmas -/

/-- On a nonnegative rational, Python truncation agrees with the floor. -/
theorem pyInt_eq_floor (q : ℚ) (hq : 0 ≤ q) : pyInt q = ⌊q⌋ := by
  rw [pyInt, Int.tdiv_eq_ediv (Rat.num_nonneg.mpr hq) (Int.natCast_nonneg _), Rat.floor_def]

/-- The split-generator loop distributes over list append, componentwise. -/
theorem split_generators_append (p : ℚ) (xs ys : List Dir) :
    SOARDataset.split_generators p (xs ++ ys) =
      ((SOARDataset.split_generators p xs).1 ++ (SOARDataset.split_generators p ys).1,
       (SOARDataset.split_generators p xs).2.1 ++ (SOARDataset.split_generators p ys).2.1,
       (SOARDataset.split_generators p xs).2.2 ++ (SOARDataset.split_generators p ys).2.2) := by
  induction xs with
  | nil => simp [SOARDataset.split_generators]
  | cons d rest ih =>
    by_cases h : d.trajs.isEmpty
    · simp [SOARDataset.split_generators, h, ih]
    · simp [SOARDataset.split_generators, h, ih]

/-! ## Claims about the video decoder and the split generator -/

/-- C2: whenever the video container can be opened, the capture handle is
released by `video_to_frames`, both on the normal path and on the failing
(zero-frame, `np.stack` raises) path. -/
theorem c2_capture_released (v : VideoFile) (h : v.openable = true) :
    (video_to_frames v).2 = true := by
  by_cases hf : v.frames = [] <;> simp [video_to_frames, h, hf]

/-- Witness for C2: the handle is released on a zero-frame (failing) video
and on a one-frame (succeeding) video. -/
theorem c2_witness :
    emptyVid.openable = true ∧ (video_to_frames emptyVid).2 = true ∧
      oneFrameVid.openable = true ∧ (video_to_frames oneFrameVid).2 = true :=
  ⟨rfl, c2_capture_released emptyVid rfl, rfl, c2_capture_released oneFrameVid rfl⟩

/-- Unfolding of the split-generator loop on a nonempty list of directories:
exactly the two branches of the loop body. -/
theorem split_generators_cons (p : ℚ) (d : Dir) (rest : List Dir) :
    SOARDataset.split_generators p (d :: rest) =
      if d.trajs.isEmpty then
        ((SOARDataset.split_generators p rest).1,
         (SOARDataset.split_generators p rest).2.1,
         ("no trajs found in " ++ pathJoin d.path "traj*")
           :: (SOARDataset.split_generators p rest).2.2)
      else
        (d.trajs.take (pyInt ((d.trajs.length : ℚ) * p)).toNat
           ++ (SOARDataset.split_generators p rest).1,
         d.trajs.drop (pyInt ((d.trajs.length : ℚ) * p)).toNat
           ++ (SOARDataset.split_generators p rest).2.1,
         (SOARDataset.split_generators p rest).2.2) := rfl

/-- C7: for a discovered directory with children count `c` and a nonnegative
train proportion `p`, the locator sends the first `⌊c * p⌋` children (by
index) to the train partition and the remaining children to the validation
partition. -/
theorem c7_partition (p : ℚ) (d : Dir) (rest : List Dir) (hp : 0 ≤ p)
    (hne : d.trajs ≠ []) :
    (SOARDataset.split_generators p (d :: rest)).1
      = d.trajs.take (⌊(d.trajs.length : ℚ) * p⌋).toNat
          ++ (SOARDataset.split_generators p rest).1 ∧
    (SOARDataset.split_generators p (d :: rest)).2.1
      = d.trajs.drop (⌊(d.trajs.length : ℚ) * p⌋).toNat
          ++ (SOARDataset.split_generators p rest).2.1 := by
  have hfloor : pyInt ((d.trajs.length : ℚ) * p) = ⌊(d.trajs.length : ℚ) * p⌋ :=
    pyInt_eq_floor _ (mul_nonneg (Nat.cast_nonneg _) hp)
  rw [split_generators_cons, List.isEmpty_eq_false.mpr hne,
    if_neg Bool.false_ne_true, hfloor]
  exact ⟨rfl, rfl⟩

/-- Witness for C7 at proportion 1 on a directory with two children. -/
theorem c7_witness :
    (0 : ℚ) ≤ 1 ∧ dirTwo.trajs ≠ [] ∧
      ((SOARDataset.split_generators 1 (dirTwo :: [])).1
        = dirTwo.trajs.take (⌊(dirTwo.trajs.length : ℚ) * 1⌋).toNat
            ++ (SOARDataset.split_generators 1 []).1 ∧
      (SOARDataset.split_generators 1 (dirTwo :: [])).2.1
        = dirTwo.trajs.drop (⌊(dirTwo.trajs.length : ℚ) * 1⌋).toNat
            ++ (SOARDataset.split_generators 1 []).2.1) :=
  ⟨zero_le_one, List.cons_ne_nil _ _,
    c7_partition 1 dirTwo [] zero_le_one (List.cons_ne_nil _ _)⟩

/-- C9: a discovered directory with no `traj*` children is skipped: it
contributes nothing to the train and validation partitions (they equal the
partitions computed without it, so processing continued through the
remaining directories), and exactly one warning naming its search path is
logged in order.  The locator is a total function, so no error is raised,
even when every directory is empty. -/
theorem c9_empty_dir_skipped (p : ℚ) (pre post : List Dir) (d : Dir)
    (hd : d.trajs = []) :
    (SOARDataset.split_generators p (pre ++ d :: post)).1
      = (SOARDataset.split_generators p (pre ++ post)).1 ∧
    (SOARDataset.split_generators p (pre ++ d :: post)).2.1
      = (SOARDataset.split_generators p (pre ++ post)).2.1 ∧
    (SOARDataset.split_generators p (pre ++ d :: post)).2.2
      = (SOARDataset.split_generators p pre).2.2
          ++ ("no trajs found in " ++ pathJoin d.path "traj*")
            :: (SOARDataset.split_generators p post).2.2 := by
  have hde : d.trajs.isEmpty = true := List.isEmpty_iff.mpr hd
  have hstep :
      SOARDataset.split_generators p (d :: post)
        = ((SOARDataset.split_generators p post).1,
           (SOARDataset.split_generators p post).2.1,
           ("no trajs found in " ++ pathJoin d.path "traj*")
             :: (SOARDataset.split_generators p post).2.2) := by
    rw [split_generators_cons, hde, if_pos rfl]
  rw [split_generators_append p pre (d :: post), split_generators_append p pre post, hstep]
  exact ⟨rfl, rfl, rfl⟩

/-- Witness for C9: a single empty directory between no other directories is
skipped with one warning. -/
theorem c9_witness :
    dirEmpty.trajs = [] ∧
      ((SOARDataset.split_generators 1 ([] ++ dirEmpty :: [])).1
        = (SOARDataset.split_generators 1 ([] ++ [])).1 ∧
      (SOARDataset.split_generators 1 ([] ++ dirEmpty :: [])).2.1
        = (SOARDataset.split_generators 1 ([] ++ [])).2.1 ∧
      (SOARDataset.split_generators 1 ([] ++ dirEmpty :: [])).2.2
        = (SOARDataset.split_generators 1 []).2.2
            ++ ("no trajs found in " ++ pathJoin dirEmpty.path "traj*")
              :: (SOARDataset.split_generators 1 []).2.2) :=
  ⟨rfl, c9_empty_dir_skipped 1 [] [] dirEmpty rfl⟩

/-- The assembled episode has one step per action row. -/
theorem mkEpisode_length (c : ℚ → ℚ) (st : List (List ℚ)) (im : List Frame)
    (ac : List (List ℚ)) (lg : String) :
    (mkEpisode c st im ac lg).length = ac.length := by
  simp [mkEpisode]

/-- The step record at index `i` of the assembled episode. -/
theorem mkEpisode_getElem (c : ℚ → ℚ) (st : List (List ℚ)) (im : List Frame)
    (ac : List (List ℚ)) (lg : String) (i : ℕ)
    (hi : i < (mkEpisode c st im ac lg).length) :
    (mkEpisode c st im ac lg)[i] =
      { observation := { state := (st.getD i []).map c, image_0 := im.getD i [] }
        action := (ac.getD i []).map c
        is_first := decide (i = 0)
        is_last := decide (i = ac.length - 1)
        language_instruction := lg } := by
  simp [mkEpisode]

/-- Every step of the assembled episode carries the instruction string. -/
theorem mkEpisode_lang (c : ℚ → ℚ) (st : List (List ℚ)) (im : List Frame)
    (ac : List (List ℚ)) (lg : String) :
    ∀ step ∈ mkEpisode c st im ac lg, step.language_instruction = lg := by
  intro step hstep
  simp only [mkEpisode, List.mem_map] at hstep
  obtain ⟨i, _, rfl⟩ := hstep
  rfl

/-- Inversion of a successful `process_example` run: the images decoded, the
three lengths agree, the key is the trajectory path, and the sample is the
assembled episode with its metadata. -/
theorem process_example_ok_elim (c : ℚ → ℚ) (t : Traj) (k : String) (s : Sample)
    (h : SOARDataset.process_example c t = Except.ok (k, s)) :
    ∃ imgs, process_images t = Except.ok imgs ∧
      (process_actions t).length = (process_state t).length ∧
      (process_state t).length = imgs.length ∧
      k = t.path ∧
      s = { steps := mkEpisode c (process_state t) imgs (process_actions t) (process_lang t)
            episode_metadata :=
              { file_path := t.path
                has_language := !(process_lang t).isEmpty } } := by
  unfold SOARDataset.process_example at h
  split at h
  · exact absurd h (by simp)
  · rename_i imgs heq
    refine ⟨imgs, heq, ?_⟩
    have h2 :
        (if (process_actions t).length = (process_state t).length ∧
            (process_state t).length = imgs.length then
          (Except.ok (t.path,
            { steps := mkEpisode c (process_state t) imgs (process_actions t)
                (process_lang t)
              episode_metadata :=
                { file_path := t.path
                  has_language := !(process_lang t).isEmpty } })
            : Except PyErr (String × Sample))
        else
          .error (.assertLenMismatch t.path (process_actions t).length
            (process_state t).length imgs.length)) = Except.ok (k, s) := h
    split at h2
    · rename_i hc
      rw [Except.ok.injEq, Prod.mk.injEq] at h2
      exact ⟨hc.1, hc.2, h2.1.symm, h2.2.symm⟩
    · exact absurd h2 (by simp)

/-- `f.readline()` yields the first line, with its newline when one exists. -/
theorem takeLine_eq (cs : List Char) :
    takeLine cs = cs.takeWhile (fun ch => ch ≠ '\n') ∨
    takeLine cs = cs.takeWhile (fun ch => ch ≠ '\n') ++ ['\n'] := by
  induction cs with
  | nil => left; rfl
  | cons ch cs ih =>
    by_cases hch : ch = '\n'
    · right
      subst hch
      simp [takeLine, List.takeWhile_cons]
    · rcases ih with ih | ih
      · left
        simp [takeLine, List.takeWhile_cons, hch, ih]
      · right
        simp [takeLine, List.takeWhile_cons, hch, ih]

/-- Right-stripping absorbs a trailing newline. -/
theorem rstripChars_append_newline (t : List Char) :
    rstripChars (t ++ ['\n']) = rstripChars t := by
  simp [rstripChars, List.reverse_append, List.dropWhile_cons,
    show Char.isWhitespace '\n' = true from rfl]

/-- Stripping absorbs a trailing newline. -/
theorem stripChars_append_newline (t : List Char) :
    stripChars (t ++ ['\n']) = stripChars t := by
  unfold stripChars
  rw [rstripChars_append_newline]

/-- The instruction loader computes exactly the spec's description: the
whitespace-stripped first line of the file when it exists, else the empty
string (and, being a total function, it never fails on absence). -/
theorem process_lang_eq_spec (t : Traj) : process_lang t = spec_instruction t := by
  cases hl : t.lang with
  | none => simp [process_lang, spec_instruction, hl]
  | some content =>
    simp only [process_lang, spec_instruction, hl]
    rcases takeLine_eq content.data with h | h
    · rw [h]
    · rw [h, stripChars_append_newline]

/-! ## Claims about the per-trajectory transformation -/

/-- C1 counterexample: on a trajectory whose video decodes to 0 frames and
whose state and action arrays are both empty, the transformation does not
succeed: `np.stack` on the empty frame list raises a `ValueError`, so no
episode (and in particular no empty step sequence) is produced. -/
theorem c1_counterexample :
    SOARDataset.process_example (fun x => x) trajEmptyAll
      = .error (.valueError "need at least one array to stack") := rfl

/-- C1 (amended): for a trajectory whose video opens but decodes to 0 frames
and whose state and action arrays are both empty, the per-trajectory
transformation fails for that trajectory with the `ValueError` raised by
stacking an empty frame list, producing no episode. -/
theorem c1_amended (c : ℚ → ℚ) (t : Traj) (v : VideoFile)
    (hv : t.video = some v) (ho : v.openable = true) (hf : v.frames = [])
    (hs : t.eefPoses = []) (ha : t.actions = []) :
    SOARDataset.process_example c t
      = .error (.valueError "need at least one array to stack") := by
  simp [SOARDataset.process_example, process_images, hv, video_to_frames, ho, hf]

/-- Witness for the amended C1 on a concrete all-empty trajectory. -/
theorem c1_witness :
    (trajEmptyAll.video = some emptyVid ∧ emptyVid.openable = true ∧
      emptyVid.frames = [] ∧ trajEmptyAll.eefPoses = [] ∧ trajEmptyAll.actions = []) ∧
    SOARDataset.process_example (fun x => x) trajEmptyAll
      = .error (.valueError "need at least one array to stack") :=
  ⟨⟨rfl, rfl, rfl, rfl, rfl⟩,
    c1_amended (fun x => x) trajEmptyAll emptyVid rfl rfl rfl rfl rfl⟩

/-- C3 counterexample: a trajectory whose video decodes to 0 frames while
one state row and one action row are present has mismatched counts, and it
does fail fatally with no step emitted — but the failure is the plain
`ValueError` from stacking, which carries neither the trajectory path nor
the three lengths (the length assert is never reached). -/
theorem c3_counterexample :
    (process_actions trajMismatchNoFrames).length = 1 ∧
    (process_state trajMismatchNoFrames).length = 1 ∧
    emptyVid.frames.length = 0 ∧
    SOARDataset.process_example (fun x => x) trajMismatchNoFrames
      = .error (.valueError "need at least one array to stack") ∧
    SOARDataset.process_example (fun x => x) trajMismatchNoFrames
      ≠ .error (.assertLenMismatch trajMismatchNoFrames.path 1 1 0) :=
  ⟨rfl, rfl, rfl, rfl, by decide⟩

/-- C3 (amended): for every trajectory whose frame decoding succeeds but
whose decoded-frame, state-row and action-row counts are not all equal, the
assembler fails fatally with the assertion error carrying the trajectory
path and all three lengths, and (the result being an error) no step record
is emitted. -/
theorem c3_amended (c : ℚ → ℚ) (t : Traj) (imgs : List Frame)
    (himg : process_images t = Except.ok imgs)
    (hm : ¬((process_actions t).length = (process_state t).length ∧
            (process_state t).length = imgs.length)) :
    SOARDataset.process_example c t
      = .error (.assertLenMismatch t.path (process_actions t).length
          (process_state t).length imgs.length) := by
  unfold SOARDataset.process_example
  rw [himg]
  exact if_neg hm

/-- Witness for the amended C3 on a concrete mismatching trajectory with one
frame, two state rows and one action row. -/
theorem c3_witness :
    (process_images trajMismatch = Except.ok [[(3, 2, 1)]] ∧
      ¬((process_actions trajMismatch).length = (process_state trajMismatch).length ∧
        (process_state trajMismatch).length = ([[(3, 2, 1)]] : List Frame).length)) ∧
    SOARDataset.process_example (fun x => x) trajMismatch
      = .error (.assertLenMismatch trajMismatch.path 1 2 1) :=
  ⟨⟨rfl, by decide⟩,
    c3_amended (fun x => x) trajMismatch [[(3, 2, 1)]] rfl (by decide)⟩

/-- C4: on a successfully processed trajectory, the assembler emits exactly
one step per action row (equal to the state-row and frame counts), and the
step at index `i` holds the cast state row `i`, decoded frame `i`, cast
action row `i`, `is_first` exactly when `i = 0` and `is_last` exactly when
`i` is the final index. -/
theorem c4_step_records (c : ℚ → ℚ) (t : Traj) (k : String) (s : Sample)
    (imgs : List Frame) (himg : process_images t = Except.ok imgs)
    (h : SOARDataset.process_example c t = Except.ok (k, s)) :
    s.steps.length = (process_actions t).length ∧
    s.steps.length = (process_state t).length ∧
    s.steps.length = imgs.length ∧
    ∀ i (hi : i < s.steps.length),
      s.steps[i].observation.state = ((process_state t).getD i []).map c ∧
      s.steps[i].observation.image_0 = imgs.getD i [] ∧
      s.steps[i].action = ((process_actions t).getD i []).map c ∧
      s.steps[i].is_first = decide (i = 0) ∧
      s.steps[i].is_last = decide (i = (process_actions t).length - 1) := by
  obtain ⟨imgs2, himg2, hl1, hl2, hk, hs⟩ := process_example_ok_elim c t k s h
  rw [himg] at himg2
  obtain rfl : imgs = imgs2 := Except.ok.inj himg2
  subst hs
  refine ⟨mkEpisode_length .., ?_, ?_, ?_⟩
  · rw [mkEpisode_length, hl1]
  · rw [mkEpisode_length, hl1, hl2]
  · intro i hi
    rw [mkEpisode_getElem]
    exact ⟨rfl, rfl, rfl, rfl, rfl⟩

/-- Witness for C4 on a concrete three-step trajectory. -/
theorem c4_witness :
    (process_images trajGood = Except.ok imgsGood ∧
      SOARDataset.process_example (fun x => x) trajGood
        = Except.ok (trajGood.path, sampleGood)) ∧
    (sampleGood.steps.length = (process_actions trajGood).length ∧
    sampleGood.steps.length = (process_state trajGood).length ∧
    sampleGood.steps.length = imgsGood.length ∧
    ∀ i (hi : i < sampleGood.steps.length),
      sampleGood.steps[i].observation.state
        = ((process_state trajGood).getD i []).map (fun x => x) ∧
      sampleGood.steps[i].observation.image_0 = imgsGood.getD i [] ∧
      sampleGood.steps[i].action
        = ((process_actions trajGood).getD i []).map (fun x => x) ∧
      sampleGood.steps[i].is_first = decide (i = 0) ∧
      sampleGood.steps[i].is_last
        = decide (i = (process_actions trajGood).length - 1)) := by
  have hok : SOARDataset.process_example (fun x => x) trajGood
      = Except.ok (trajGood.path, sampleGood) := rfl
  exact ⟨⟨rfl, hok⟩,
    c4_step_records (fun x => x) trajGood trajGood.path sampleGood imgsGood rfl hok⟩

/-- C5: on a successfully processed trajectory, every step record carries
the same `language_instruction`, namely the loader's result, and the loader
computes the whitespace-stripped first line of the language file when it
exists and the empty string when it is absent (the loader is total, so
absence never fails). -/
theorem c5_language (c : ℚ → ℚ) (t : Traj) (k : String) (s : Sample)
    (h : SOARDataset.process_example c t = Except.ok (k, s)) :
    (∀ step ∈ s.steps, step.language_instruction = process_lang t) ∧
    process_lang t = spec_instruction t := by
  obtain ⟨imgs, _, _, _, _, hs⟩ := process_example_ok_elim c t k s h
  subst hs
  exact ⟨mkEpisode_lang _ _ _ _ _, process_lang_eq_spec t⟩

/-- Witness for C5 on a concrete trajectory whose language file content is
"pick up cup" followed by a newline. -/
theorem c5_witness :
    SOARDataset.process_example (fun x => x) trajGood
      = Except.ok (trajGood.path, sampleGood) ∧
    ((∀ step ∈ sampleGood.steps, step.language_instruction = process_lang trajGood) ∧
      process_lang trajGood = spec_instruction trajGood) := by
  have hok : SOARDataset.process_example (fun x => x) trajGood
      = Except.ok (trajGood.path, sampleGood) := rfl
  exact ⟨hok, c5_language (fun x => x) trajGood trajGood.path sampleGood hok⟩

/-- C6: on a successfully assembled episode, `has_language` is true exactly
when the trajectory's instruction string is non-empty. -/
theorem c6_has_language (c : ℚ → ℚ) (t : Traj) (k : String) (s : Sample)
    (h : SOARDataset.process_example c t = Except.ok (k, s)) :
    s.episode_metadata.has_language = true ↔ process_lang t ≠ "" := by
  obtain ⟨imgs, _, _, _, _, hs⟩ := process_example_ok_elim c t k s h
  subst hs
  simp only [Bool.not_eq_eq_eq_not, Bool.not_true, Bool.not_eq_true]
  rw [← Bool.not_eq_true (process_lang t).isEmpty]
  simp [String.isEmpty_iff]

/-- Witness for C6 on a concrete trajectory with a non-empty instruction. -/
theorem c6_witness :
    SOARDataset.process_example (fun x => x) trajGood
      = Except.ok (trajGood.path, sampleGood) ∧
    (sampleGood.episode_metadata.has_language = true ↔ process_lang trajGood ≠ "") := by
  have hok : SOARDataset.process_example (fun x => x) trajGood
      = Except.ok (trajGood.path, sampleGood) := rfl
  exact ⟨hok, c6_has_language (fun x => x) trajGood trajGood.path sampleGood hok⟩

/-- C8 counterexample: a trajectory whose `trajectory.mp4` exists and whose
container opens, but which decodes to zero frames, makes the frame decoder
raise the stacking `ValueError` instead of returning the (empty) decoded
frame sequence. -/
theorem c8_counterexample :
    trajZeroFrames.video = some emptyVid ∧ emptyVid.openable = true ∧
    process_images trajZeroFrames
      = .error (.valueError "need at least one array to stack") :=
  ⟨rfl, rfl, rfl⟩

/-- C8 (amended): the frame decoder fails with the exists-assertion error
when `trajectory.mp4` is missing, fails with `ValueError` when the container
cannot be opened, and returns the decoded frames whenever at least one frame
decodes; an openable video with zero frames instead raises the stacking
`ValueError`. -/
theorem c8_amended (t : Traj) (v : VideoFile) :
    (t.video = none → process_images t
      = .error (.assertExists
          ("Video file " ++ pathJoin t.path "trajectory.mp4" ++ " does not exist"))) ∧
    (t.video = some v → v.openable = false → process_images t
      = .error (.valueError "Error opening video file")) ∧
    (t.video = some v → v.openable = true → v.frames ≠ [] → process_images t
      = .ok (v.frames.map cvtColor)) := by
  refine ⟨?_, ?_, ?_⟩
  · intro hv
    simp [process_images, hv]
  · intro hv ho
    simp [process_images, hv, video_to_frames, ho]
  · intro hv ho hf
    simp [process_images, hv, video_to_frames, ho, hf]

/-- Witness for the amended C8: a present, openable, one-frame video is
decoded to its RGB frames. -/
theorem c8_witness :
    (trajOneFrame.video = some oneFrameVid ∧ oneFrameVid.openable = true ∧
      oneFrameVid.frames ≠ []) ∧
    process_images trajOneFrame = .ok (oneFrameVid.frames.map cvtColor) :=
  ⟨⟨rfl, rfl, by decide⟩,
    (c8_amended trajOneFrame oneFrameVid).2.2 rfl rfl (by decide)⟩

/-- C10: the transformation is deterministic — it is a function of the
trajectory path and the four file contents alone, so two trajectories that
agree on those produce identical outputs; moreover on success the returned
key is the trajectory path, which is also the metadata's `file_path`. -/
theorem c10_deterministic (c : ℚ → ℚ) (t1 t2 : Traj)
    (hp : t1.path = t2.path) (hv : t1.video = t2.video)
    (he : t1.eefPoses = t2.eefPoses) (ha : t1.actions = t2.actions)
    (hl : t1.lang = t2.lang) :
    SOARDataset.process_example c t1 = SOARDataset.process_example c t2 ∧
    ∀ k s, SOARDataset.process_example c t1 = Except.ok (k, s) →
      k = t1.path ∧ s.episode_metadata.file_path = t1.path := by
  have ht : t1 = t2 := by
    cases t1
    cases t2
    simp_all
  constructor
  · rw [ht]
  · intro k s h
    obtain ⟨imgs, _, _, _, hk, hs⟩ := process_example_ok_elim c t1 k s h
    subst hs
    exact ⟨hk, rfl⟩

/-- Witness for C10: two syntactically identical trajectory values yield the
same output, whose key and `file_path` are the trajectory path. -/
theorem c10_witness :
    (trajGood.path = trajGood.path ∧ trajGood.video = trajGood.video ∧
      trajGood.eefPoses = trajGood.eefPoses ∧ trajGood.actions = trajGood.actions ∧
      trajGood.lang = trajGood.lang) ∧
    (SOARDataset.process_example (fun x => x) trajGood
        = SOARDataset.process_example (fun x => x) trajGood ∧
      ∀ k s, SOARDataset.process_example (fun x => x) trajGood = Except.ok (k, s) →
        k = trajGood.path ∧ s.episode_metadata.file_path = trajGood.path) :=
  ⟨⟨rfl, rfl, rfl, rfl, rfl⟩,
    c10_deterministic (fun x => x) trajGood trajGood rfl rfl rfl rfl rfl⟩
